import Mathlib

set_option maxRecDepth 100000
set_option maxHeartbeats 2000000

/-!
# Verification of the catalog-index orchestration core

Shallow embedding of the research-agent orchestration core of the
catalog-index repository (state-machine agent, evaluation service,
content filter, synthesis merger, rate limiter), with theorems settling
the frozen claims about it.

Strings are modelled as Lean `String`/`List Char`; Python `float`
arithmetic on counter ratios is modelled with `ℚ`; machine time is
modelled with `ℚ`; fallible calls return `Except`/`Option`.
-/

namespace LibraryIndex

/-! ## Python string primitives

`pyIsSpace` models the characters Python's `str.strip()` and the regex
class `\s` treat as whitespace (the ASCII whitespace characters; the
repository's inputs contain no exotic Unicode spaces). -/

def pyIsSpace (c : Char) : Bool :=
  c = ' ' || c = '\t' || c = '\n' || c = '\r' || c = '\x0b' || c = '\x0c'

/-- Python `str.strip()` on a character list. -/
def pyStrip (s : List Char) : List Char :=
  ((s.dropWhile pyIsSpace).reverse.dropWhile pyIsSpace).reverse

/-- Python `str.strip()` on a `String`. -/
def pyStripStr (s : String) : String := ⟨pyStrip s.data⟩

/-! ## A small regular-expression engine

Just enough of Python's `re` to embed the patterns used by
`filter_invalid_content` (src/infrastructure/utils/content_filter.py):
case-insensitive literals, character classes, `.` (any char except
newline), `\s`, concatenation, prioritized alternation, lazy star
(`.*?`), greedy star (`.*`).  Matching is anchored backtracking in
Python's priority order, written in continuation-passing style.  All
recursion is structural so the kernel can evaluate matches on concrete
inputs: star iteration is unrolled `length + 1` times with a progress
guard, which is exact because each iteration of a star body consumes at
least one character (iterations that consume nothing are cut, as no
pattern below has a nullable star body), so the fuel can never be
exhausted before the guard stops the iteration. -/

inductive RE : Type where
  | eps : RE
  | ch : Char → RE
  | cls : List Char → RE
  | dot : RE
  | wsp : RE
  | seq : RE → RE → RE
  | alt : RE → RE → RE
  | starL : RE → RE
  | starG : RE → RE
deriving Repr

/-- Bounded star iteration of a matcher `m`, trying zero iterations
first when `lzy` is set (lazy star) and last otherwise (greedy star).
Each further iteration must consume at least one character. -/
def starIter {α : Type} (m : List Char → (List Char → Option α) → Option α)
    (lzy : Bool) : ℕ → List Char → (List Char → Option α) → Option α
  | 0, s, k => k s
  | n + 1, s, k =>
      let more := m s (fun t => if t.length < s.length then starIter m lzy n t k else none)
      if lzy then (k s) <|> more else more <|> (k s)

/-- Backtracking matcher, anchored at the start of `s`.  Tries the
parses of `re` in Python's preference order and feeds the remainder of
the input to the continuation `k`; the first parse whose continuation
succeeds wins. -/
def reRun {α : Type} : RE → List Char → (List Char → Option α) → Option α
  | .eps, s, k => k s
  | .ch _, [], _ => none
  | .ch c, x :: rest, k => if x.toLower = c.toLower then k rest else none
  | .cls _, [], _ => none
  | .cls cs, x :: rest, k => if x ∈ cs then k rest else none
  | .dot, [], _ => none
  | .dot, x :: rest, k => if x = '\n' then none else k rest
  | .wsp, [], _ => none
  | .wsp, x :: rest, k => if pyIsSpace x then k rest else none
  | .seq a b, s, k => reRun a s (fun t => reRun b t k)
  | .alt a b, s, k => (reRun a s k) <|> (reRun b s k)
  | .starL a, s, k => starIter (fun t k2 => reRun a t k2) true (s.length + 1) s k
  | .starG a, s, k => starIter (fun t k2 => reRun a t k2) false (s.length + 1) s k

/-- End of the preferred anchored match of `re` at the start of `s`
(the remainder of the input after the match), or `none`. -/
def reMatchEnd (re : RE) (s : List Char) : Option (List Char) :=
  reRun re s (fun t => some t)

/-- Python `re.search(pattern, s)` as existence: does `re` match at
some position of `s`? -/
def reSearch (re : RE) : List Char → Bool
  | [] => (reMatchEnd re []).isSome
  | c :: rest => (reMatchEnd re (c :: rest)).isSome || reSearch re rest

/-- One fuelled step list of `re.sub`: scan left to right, replacing
each leftmost preferred match by `repl`.  Every step consumes at least
one input character, so fuel `length + 1` can never run out. -/
def reSubFuel (re : RE) (repl : List Char) : ℕ → List Char → List Char
  | 0, s => s
  | _ + 1, [] => []
  | n + 1, c :: rest =>
      match reMatchEnd re (c :: rest) with
      | some t =>
          if t.length < rest.length + 1 then repl ++ reSubFuel re repl n t
          else repl ++ c :: reSubFuel re repl n rest
      | none => c :: reSubFuel re repl n rest

/-- Python `re.sub(pattern, repl, s)`: replace every non-overlapping
leftmost match (preferred parse) of `re` in `s` by `repl`. -/
def reSubAll (re : RE) (repl : List Char) (s : List Char) : List Char :=
  reSubFuel re repl (s.length + 1) s

/-! Combinators used to transcribe the source patterns. -/

/-- Literal word, one `RE.ch` per character (case-insensitive). -/
def lits (s : String) : RE :=
  s.data.foldr (fun c acc => RE.seq (RE.ch c) acc) RE.eps

/-- Sequence of regex pieces. -/
def seqs (l : List RE) : RE := l.foldr RE.seq RE.eps

/-- Alternation of literal words, in source order (Python tries
alternatives left to right). -/
def altw (l : List String) : RE :=
  match l with
  | [] => RE.eps
  | [w] => lits w
  | w :: rest => RE.alt (lits w) (altw rest)

/-- `\s+` (greedy). -/
def wsPlus : RE := RE.seq RE.wsp (RE.starG RE.wsp)

/-- `.*?` (lazy). -/
def lazyAny : RE := RE.starL RE.dot

/-- `.*` (greedy). -/
def greedyAny : RE := RE.starG RE.dot

/-- `(x)?` (greedy option). -/
def optw (s : String) : RE := RE.alt (lits s) RE.eps

/-! ## ContentFilter
(src/infrastructure/utils/content_filter.py, `filter_invalid_content`)

`invalidPatterns` transcribes the `invalid_patterns` list (18 Chinese
patterns followed by 14 English ones, in source order). -/

def invalidPatterns : List RE := [
  seqs [lits "没", optw "有", lits "找到", lazyAny,
    altw ["相关", "匹配", "合适", "对应", "符合"], lazyAny,
    altw ["信息", "数据", "内容", "结果"]],
  seqs [lits "未", optw "能", lits "找到", lazyAny,
    altw ["符合", "相关", "匹配"], lazyAny,
    altw ["要求", "条件", "信息", "结果"]],
  seqs [lits "找不到", lazyAny, altw ["相关", "匹配", "合适"], lazyAny,
    altw ["信息", "数据", "内容"]],
  seqs [lits "未检索到", lazyAny, altw ["相关", "匹配"], lazyAny,
    altw ["结果", "数据"]],
  seqs [lits "未搜索到", lazyAny, altw ["相关", "符合", "匹配"], lazyAny,
    altw ["记录", "结果"]],
  seqs [lits "无", lazyAny, altw ["匹配", "符合", "相关"], lazyAny,
    altw ["记录", "数据", "内容"]],
  seqs [lits "无可用", lazyAny, altw ["信息", "数据", "内容"]],
  seqs [lits "没有匹配的", lazyAny, altw ["数据", "结果", "内容"]],
  seqs [lits "没有符合条件的", lazyAny, altw ["结果", "数据"]],
  seqs [lits "暂时", lazyAny, altw ["没有", "无"], lazyAny,
    altw ["数据", "结果", "记录"]],
  seqs [lits "查无", lazyAny, altw ["结果", "数据", "记录"]],
  lits "检索结果为空",
  lits "搜索结果为空",
  lits "无搜索结果",
  lits "无匹配项",
  lits "无符合条件的记录",
  seqs [lits "暂无相关", lazyAny, altw ["信息", "数据", "内容"]],
  seqs [lits "没有查到", lazyAny, altw ["信息", "数据", "内容"]],
  seqs [lits "no", wsPlus,
    altw ["matching", "relevant", "appropriate", "corresponding"], greedyAny,
    altw ["information", "data", "content", "result"]],
  seqs [lits "not", wsPlus, lits "able", wsPlus, lits "to", wsPlus, lits "find",
    lazyAny, altw ["matching", "relevant", "appropriate", "corresponding"],
    greedyAny, altw ["result", "data", "content"]],
  seqs [lits "could", wsPlus, lits "not", wsPlus, lits "find", lazyAny,
    altw ["matching", "relevant", "appropriate", "corresponding"],
    greedyAny, altw ["record", "result", "data"]],
  seqs [lits "did", wsPlus, lits "not", wsPlus, lits "return", wsPlus,
    lits "any", wsPlus, altw ["result", "data", "record", "match"]],
  seqs [lits "returned", wsPlus, lits "no", wsPlus,
    altw ["result", "data", "record", "match"]],
  seqs [lits "search", wsPlus, lits "result", optw "s", wsPlus,
    lits "are", wsPlus, lits "empty"],
  seqs [lits "no", wsPlus, lits "result", optw "s", wsPlus, lits "found"],
  seqs [lits "nothing", wsPlus, lits "found"],
  seqs [lits "there", wsPlus, lits "is", wsPlus, lits "no", wsPlus,
    altw ["data", "result", "record", "match"]],
  seqs [lits "currently", wsPlus, lits "no", wsPlus,
    altw ["data", "result", "record", "match"]],
  seqs [lits "no", wsPlus, lits "available", wsPlus,
    altw ["data", "information", "content"]],
  seqs [lits "unable", wsPlus, lits "to", wsPlus, lits "retrieve", wsPlus,
    altw ["data", "information", "content"]],
  seqs [lits "no", wsPlus, lits "matching", wsPlus, lits "entries", wsPlus,
    lits "found"],
  seqs [lits "no", wsPlus, lits "entries", wsPlus, lits "match", wsPlus,
    lits "your", wsPlus, lits "criteria"]]

/-- `FILTER_CONDITIONS` (src/config/constants.py line 41). -/
def FILTER_CONDITIONS : ℚ := 1 / 2

/-- `FILTER_MIN_NUMBER` (src/config/constants.py line 42). -/
def FILTER_MIN_NUMBER : ℕ := 50

/-- The sentence delimiters of `re.split(r"[。！？.!?\n]", content)`. -/
def sentenceDelims : List Char := ['。', '！', '？', '.', '!', '?', '\n']

/-- Number of parts `re.split(r"[。！？.!?\n]", content)` produces
(`total_sentences` in the source): one more than the number of
delimiter occurrences, empty parts included. -/
def totalSentences (s : List Char) : ℕ :=
  (s.filter (fun c => c ∈ sentenceDelims)).length + 1

/-- `invalid_count`: how many of the 32 patterns have a match somewhere
in the content. -/
def numMatchingPatterns (s : List Char) : ℕ :=
  (invalidPatterns.filter (fun p => reSearch p s)).length

/-- The threshold test `invalid_count > total_sentences * CONFIG["FILTER_CONDITIONS"]`
(content_filter.py line 73).  Written over the integers — with
`FILTER_CONDITIONS = 1/2` the rational test is exactly
`total_sentences < 2 * invalid_count`; theorem
`filterThresholdExceeded_iff_rat` below proves this form equivalent to
the literal rational comparison (Mathlib's `ℚ` arithmetic does not
evaluate inside the kernel, so the executable definition uses the
integer form). -/
def filterThresholdExceeded (invalid_count total_sentences : ℕ) : Bool :=
  total_sentences < 2 * invalid_count

/-- The `[。！？]*` appended to each pattern before `re.sub`. -/
def trailingCnPunct : RE := RE.starG (RE.cls ['。', '！', '？'])

/-- The pattern-removal loop: for each pattern in order, delete every
occurrence of `pattern + r"[。！？]*"` from the content. -/
def stripPatterns (s : List Char) : List Char :=
  invalidPatterns.foldl (fun acc p => reSubAll (RE.seq p trailingCnPunct) [] acc) s

/-- `r"\n\s*\n"`. -/
def nlWsNl : RE := seqs [RE.ch '\n', RE.starG RE.wsp, RE.ch '\n']

/-- `re.sub(r"\n\s*\n", "\n\n", filtered_content.strip())`. -/
def cleanupWhitespace (s : List Char) : List Char :=
  reSubAll nlWsNl ['\n', '\n'] (pyStrip s)

/-- `filter_invalid_content`
(src/infrastructure/utils/content_filter.py lines 18-92). -/
def filter_invalid_content (content : String) : String :=
  if content = "" then ""
  else
    let cs := content.data
    if filterThresholdExceeded (numMatchingPatterns cs) (totalSentences cs) then ""
    else
      let filtered := cleanupWhitespace (stripPatterns cs)
      if (pyStrip filtered).length < FILTER_MIN_NUMBER then ""
      else ⟨pyStrip filtered⟩

/-! ## Configuration (src/config/constants.py, src/config/settings.py) -/

/-- `CONSTANT_CONFIG["MAXIMUM_NUM_OF_RETRIES"]`. -/
def MAXIMUM_NUM_OF_RETRIES : ℕ := 3

/-- `CONSTANT_CONFIG["MIN_PAPER_ANALYSIS_SUCCESS_RATE"]`. -/
def MIN_PAPER_ANALYSIS_SUCCESS_RATE : ℚ := 3 / 10

/-- `CONSTANT_CONFIG["MIN_SEARCH_RESULTS"]`. -/
def MIN_SEARCH_RESULTS : ℕ := 3

/-- The numeric entries of `CONSTANT_CONFIG` as the partial map that a
`CONFIG[key]` lookup sees, `none` meaning the lookup raises `KeyError`.
The remaining keys of `CONFIG` are string-valued (URLs, prompts, and
`.env` entries — `dotenv_values` yields only string values, and a
`.env` line cannot define the empty-string key), so no numeric-context
lookup can be satisfied by them; in particular `""` and
`"MINIMUM_RELEVANCE_THRESHOLD"` are bound to no numeric value anywhere
in the repository. -/
def CONSTANT_CONFIG_num (key : String) : Option ℚ :=
  if key = "MAXIMUM_NUM_OF_RETRIES" then some MAXIMUM_NUM_OF_RETRIES
  else if key = "MAX_WORKERS" then some 8
  else if key = "LLM_TIMEOUT_LIMIT" then some 1000
  else if key = "QWEN_TIMEOUT_LIMIT" then some 300
  else if key = "ARXIV_TIMEOUT_LIMIT" then some 1000
  else if key = "PDF_CONVERTER_IMAGE_SCALE" then some 2
  else if key = "FILTER_CONDITIONS" then some FILTER_CONDITIONS
  else if key = "FILTER_MIN_NUMBER" then some (FILTER_MIN_NUMBER : ℚ)
  else if key = "MAX_CHUNK_LENGTH" then some 20000
  else if key = "ADB_RATE_LIMITER" then some 3
  else if key = "MIN_PAPER_ANALYSIS_SUCCESS_RATE" then some MIN_PAPER_ANALYSIS_SUCCESS_RATE
  else if key = "MIN_SEARCH_RESULTS" then some (MIN_SEARCH_RESULTS : ℚ)
  else if key = "ADB_SEARCH_MAX_RESULTS" then some 1
  else none

/-! ## Agent data model
(src/domains/agents/agent_states.py, src/domains/entities/execution_context.py) -/

/-- `AgentState` (identical in agent_states.py and orchestrator.py). -/
inductive AgentState : Type where
  | INITIALIZING
  | ANALYZING_QUERY
  | PLANNING_SEARCH
  | EXECUTING_SEARCH
  | PROCESSING_RESULTS
  | EVALUATING_RESULTS
  | REFINING_STRATEGY
  | SYNTHESIZING
  | COMPLETED
  | ERROR
deriving DecidableEq, Repr

/-- `ExecutionContext` (execution_context.py lines 17-33).  The counter
fields are naturals: in the source they start at 0 and are only ever
incremented or assigned list lengths.  The append-only audit fields
`execution_history`/`search_results`/`analysis_results` are omitted:
no computation any claim mentions reads them. -/
structure ExecutionContext : Type where
  current_state : AgentState
  search_attempts : ℕ
  total_papers_found : ℕ
  processed_papers : ℕ
  successful_analyses : ℕ
  failed_analyses : ℕ
  current_keywords : String
  user_query : String
deriving DecidableEq, Repr

/-! ## EvaluationService
(src/domains/services/evaluation_service.py and the duplicate revision
`_evaluate_search_quality` in src/domains/orchestrator.py) -/

/-- The dictionary `evaluate_search_quality` returns. -/
structure Evaluation : Type where
  papers_found : ℕ
  success_rate : ℚ
  search_efficiency : ℚ
  needs_refinement : Bool
  suggested_action : String
deriving DecidableEq, Repr

/-- `evaluate_search_quality` (evaluation_service.py lines 19-52): the
metrics record is built first, then the decision fields are overwritten
by the first matching branch of an if/elif chain.  Integer ratios are
modelled in `ℚ`. -/
def evaluate_search_quality (ctx : ExecutionContext) : Evaluation :=
  let evaluation : Evaluation :=
    { papers_found := ctx.total_papers_found
      success_rate := (ctx.successful_analyses : ℚ) / ((max 1 ctx.processed_papers : ℕ) : ℚ)
      search_efficiency := (ctx.total_papers_found : ℚ) / ((max 1 ctx.search_attempts : ℕ) : ℚ)
      needs_refinement := false
      suggested_action := "continue" }
  if ctx.total_papers_found = 0 then
    { evaluation with needs_refinement := true, suggested_action := "expand_keywords" }
  else if evaluation.success_rate < MIN_PAPER_ANALYSIS_SUCCESS_RATE then
    { evaluation with needs_refinement := true, suggested_action := "refine_keywords" }
  else if ctx.total_papers_found < MIN_SEARCH_RESULTS ∧
      ctx.search_attempts < MAXIMUM_NUM_OF_RETRIES then
    { evaluation with needs_refinement := true, suggested_action := "broaden_search" }
  else evaluation

/-- `_evaluate_search_quality` (orchestrator.py lines 226-262): the
duplicate revision, thresholds 0.3 and 3 written inline and the retry
bound taken from `self.max_search_retries`. -/
def evaluate_search_quality_orch (max_search_retries : ℕ) (ctx : ExecutionContext) :
    Evaluation :=
  let evaluation : Evaluation :=
    { papers_found := ctx.total_papers_found
      success_rate := (ctx.successful_analyses : ℚ) / ((max 1 ctx.processed_papers : ℕ) : ℚ)
      search_efficiency := (ctx.total_papers_found : ℚ) / ((max 1 ctx.search_attempts : ℕ) : ℚ)
      needs_refinement := false
      suggested_action := "continue" }
  if ctx.total_papers_found = 0 then
    { evaluation with needs_refinement := true, suggested_action := "expand_keywords" }
  else if evaluation.success_rate < 3 / 10 then
    { evaluation with needs_refinement := true, suggested_action := "refine_keywords" }
  else if ctx.total_papers_found < 3 ∧ ctx.search_attempts < max_search_retries then
    { evaluation with needs_refinement := true, suggested_action := "broaden_search" }
  else evaluation

/-! ## EVALUATING_RESULTS handlers -/

/-- `_handle_result_evaluation` (src/domains/orchestrator.py lines
838-867): refine exactly when the evaluation asks for refinement and
`search_attempts < max_search_retries`; otherwise synthesize. -/
def handle_result_evaluation_orch (max_search_retries : ℕ) (ctx : ExecutionContext) :
    AgentState :=
  let evaluation := evaluate_search_quality_orch max_search_retries ctx
  if evaluation.needs_refinement ∧ ctx.search_attempts < max_search_retries then
    AgentState.REFINING_STRATEGY
  else
    AgentState.SYNTHESIZING

/-- `_handle_result_evaluation` (src/domains/agents/agent.py lines
444-473).  The retry bound is read as `CONFIG[""]` (line 469); the
empty string is not a configuration key, so the lookup raises
`KeyError` whenever `needs_refinement` is true (Python `and`
short-circuits, so the lookup is not reached otherwise). -/
def handle_result_evaluation_agent (ctx : ExecutionContext) : Except String AgentState :=
  let evaluation := evaluate_search_quality ctx
  if evaluation.needs_refinement then
    match CONSTANT_CONFIG_num "" with
    | none => Except.error "KeyError"
    | some m =>
        if (ctx.search_attempts : ℚ) < m then Except.ok AgentState.REFINING_STRATEGY
        else Except.ok AgentState.SYNTHESIZING
  else
    Except.ok AgentState.SYNTHESIZING

/-! ## PROCESSING_RESULTS
(src/domains/agents/agent.py lines 303-439) -/

/-- One arXiv metadata record as the handler reads it: `meta["id"]` and
`meta.get("summary", "")` (the abstract). -/
structure PaperMeta : Type where
  id : String
  summary : String
deriving DecidableEq, Repr

/-- The relevance gate of `_handle_result_processing` (agent.py lines
349-375).  `scorer` abstracts the `evaluate_abstract_relevance` LLM
collaborator call (find_connect_service.py lines 20-48 — whose body is
truncated mid-`try` in the source), returning a score or raising.  A
paper with a blank abstract skips the check and is included.  The
score call *and* the `CONFIG["MINIMUM_RELEVANCE_THRESHOLD"]` threshold
comparison both run inside one `try/except`, and an exception anywhere
in the block logs a warning and includes the paper anyway (fail-open);
the threshold key is bound nowhere, so that lookup raises. -/
def passes_relevance_filter (scorer : PaperMeta → Except Unit ℚ) (meta : PaperMeta) :
    Bool :=
  if pyStrip meta.summary.data = [] then true
  else
    match scorer meta with
    | Except.error _ => true
    | Except.ok score =>
        match CONSTANT_CONFIG_num "MINIMUM_RELEVANCE_THRESHOLD" with
        | none => true
        | some threshold => decide (threshold ≤ score)

/-- Effect of one analysed paper on the context counters: the success
path increments `successful_analyses`, the failure path increments
`failed_analyses` (agent.py lines 318-330 for worker papers and
392-408 for cache hits; the increment happens before `processed_papers`
is assigned at line 423). -/
def applyPaperOutcome (ctx : ExecutionContext) (success : Bool) : ExecutionContext :=
  if success then { ctx with successful_analyses := ctx.successful_analyses + 1 }
  else { ctx with failed_analyses := ctx.failed_analyses + 1 }

/-- The successive counter states `_handle_result_processing` passes
through while the relevant papers are analysed, one increment per
paper, starting from the context as it stands when the handler begins
(`processed_papers` is assigned only after all of these states). -/
def processingTrace (ctx : ExecutionContext) (outcomes : List Bool) :
    List ExecutionContext :=
  List.scanl applyPaperOutcome ctx outcomes

/-- `_handle_result_processing` (agent.py lines 335-439): return early
if there is no metadata; gate the found papers by abstract relevance;
analyse each survivor (memory-cache hit on the coordinator thread or
worker dispatch — either way exactly one counter increment and one
result-queue entry per survivor); set `processed_papers` to the number
of survivors (line 423); then build the `add_execution_record` details
dict, which reads `CONFIG["MINIMUM_RELEVANCE_THRESHOLD"]` *outside any
try* (line 434) — with the key absent this final logging call raises
`KeyError` after the counter mutations, and the handler never returns
`EVALUATING_RESULTS`.  `outcome m` abstracts whether paper `m`'s
analysis succeeds, `queued m` the string it pushes onto the result
queue; the returned triple is (context as mutated so far, queued
strings, next state or the escaping exception). -/
def handle_result_processing (scorer : PaperMeta → Except Unit ℚ)
    (outcome : PaperMeta → Bool) (queued : PaperMeta → String)
    (ctx : ExecutionContext) (all_metadata : List PaperMeta) :
    ExecutionContext × List String × Except String AgentState :=
  if all_metadata.isEmpty then (ctx, [], Except.ok AgentState.EVALUATING_RESULTS)
  else
    let relevant_metadata := all_metadata.filter (passes_relevance_filter scorer)
    if relevant_metadata.isEmpty then (ctx, [], Except.ok AgentState.EVALUATING_RESULTS)
    else
      let ctx1 := relevant_metadata.foldl (fun c m => applyPaperOutcome c (outcome m)) ctx
      let ctx2 := { ctx1 with processed_papers := relevant_metadata.length }
      (ctx2, relevant_metadata.map queued,
        match CONSTANT_CONFIG_num "MINIMUM_RELEVANCE_THRESHOLD" with
        | none => Except.error "KeyError"
        | some _ => Except.ok AgentState.EVALUATING_RESULTS)

/-- The counter invariant §3 of the spec asserts for every reachable
context: `successful_analyses + failed_analyses ≤ processed_papers`. -/
def countersInvariant (ctx : ExecutionContext) : Prop :=
  ctx.successful_analyses + ctx.failed_analyses ≤ ctx.processed_papers

instance (ctx : ExecutionContext) : Decidable (countersInvariant ctx) := by
  unfold countersInvariant; infer_instance

/-! ## The driver loop (src/domains/orchestrator.py `execute`,
lines 969-1006)

For the termination claim the collaborators are fully adversarial: an
oracle chooses, at every step, whether the handler raises (caught by
`execute`, which forces `ERROR`), whether any query found papers, and
what the evaluation's `needs_refinement` flag is.  Only the agent's
own control state and `search_attempts` are tracked — everything else
the handlers do is irrelevant to which state comes next. -/

structure DriverState : Type where
  st : AgentState
  attempts : ℕ
deriving DecidableEq, Repr

/-- Collaborator behaviour for a single handler execution. -/
structure StepChoice : Type where
  raises : Bool
  papersFound : Bool
  needsRefinement : Bool

/-- One iteration of the `execute` while-loop: run the current state's
handler and adopt the state it returns.  `EXECUTING_SEARCH` increments
`search_attempts` exactly once (line 754) and branches on whether any
query yielded papers (lines 767-770); `EVALUATING_RESULTS` refines only
while `search_attempts < max_search_retries` (lines 861-867);
`PROCESSING_RESULTS` always evaluates next; `SYNTHESIZING` completes;
an exception escaping any handler is caught at lines 1003-1006 and
forces `ERROR`.  Terminal states are fixed points. -/
def driverStep (maxr : ℕ) (c : StepChoice) (s : DriverState) : DriverState :=
  match s.st with
  | AgentState.COMPLETED => s
  | AgentState.ERROR => s
  | AgentState.INITIALIZING =>
      if c.raises then ⟨AgentState.ERROR, s.attempts⟩
      else ⟨AgentState.ANALYZING_QUERY, s.attempts⟩
  | AgentState.ANALYZING_QUERY =>
      if c.raises then ⟨AgentState.ERROR, s.attempts⟩
      else ⟨AgentState.PLANNING_SEARCH, s.attempts⟩
  | AgentState.PLANNING_SEARCH =>
      if c.raises then ⟨AgentState.ERROR, s.attempts⟩
      else ⟨AgentState.EXECUTING_SEARCH, s.attempts⟩
  | AgentState.EXECUTING_SEARCH =>
      if c.raises then ⟨AgentState.ERROR, s.attempts⟩
      else if c.papersFound then ⟨AgentState.PROCESSING_RESULTS, s.attempts + 1⟩
      else ⟨AgentState.EVALUATING_RESULTS, s.attempts + 1⟩
  | AgentState.PROCESSING_RESULTS =>
      if c.raises then ⟨AgentState.ERROR, s.attempts⟩
      else ⟨AgentState.EVALUATING_RESULTS, s.attempts⟩
  | AgentState.EVALUATING_RESULTS =>
      if c.raises then ⟨AgentState.ERROR, s.attempts⟩
      else if c.needsRefinement ∧ s.attempts < maxr then
        ⟨AgentState.REFINING_STRATEGY, s.attempts⟩
      else ⟨AgentState.SYNTHESIZING, s.attempts⟩
  | AgentState.REFINING_STRATEGY =>
      if c.raises then ⟨AgentState.ERROR, s.attempts⟩
      else ⟨AgentState.PLANNING_SEARCH, s.attempts⟩
  | AgentState.SYNTHESIZING =>
      if c.raises then ⟨AgentState.ERROR, s.attempts⟩
      else ⟨AgentState.COMPLETED, s.attempts⟩

/-- The `execute` loop exits exactly on these states. -/
def IsTerminal (s : DriverState) : Prop :=
  s.st = AgentState.COMPLETED ∨ s.st = AgentState.ERROR

instance (s : DriverState) : Decidable (IsTerminal s) := by
  unfold IsTerminal; infer_instance

/-- `n` iterations of the `execute` loop under the oracle `oracle`
(the oracle is consulted once per iteration). -/
def runDriver (maxr : ℕ) (oracle : ℕ → StepChoice) : ℕ → DriverState → DriverState
  | 0, s => s
  | n + 1, s => runDriver maxr (fun i => oracle (i + 1)) n (driverStep maxr (oracle 0) s)

/-- Termination measure for the driver loop: an upper bound on the
number of handler executions still possible from a given state. -/
def driverRank (maxr : ℕ) (s : DriverState) : ℕ :=
  match s.st with
  | AgentState.COMPLETED => 0
  | AgentState.ERROR => 0
  | AgentState.SYNTHESIZING => 1
  | AgentState.EVALUATING_RESULTS => 2 + 5 * (maxr - s.attempts)
  | AgentState.PROCESSING_RESULTS => 3 + 5 * (maxr - s.attempts)
  | AgentState.EXECUTING_SEARCH => 4 + 5 * (maxr - (s.attempts + 1))
  | AgentState.PLANNING_SEARCH => 5 + 5 * (maxr - (s.attempts + 1))
  | AgentState.REFINING_STRATEGY => 6 + 5 * (maxr - (s.attempts + 1))
  | AgentState.ANALYZING_QUERY => 6 + 5 * (maxr - (s.attempts + 1))
  | AgentState.INITIALIZING => 7 + 5 * (maxr - (s.attempts + 1))

/-! ## RateLimiter
(src/infrastructure/utils/rate_limiter.py lines 22-31)

`wait_if_needed` runs entirely under the instance's mutex, so the calls
serialize; each took the lock at some monotonic-clock reading `now`.
Its effect is: if `last_request_time + min_interval > now`, sleep until
`next_time = last_request_time + min_interval` and record `next_time`;
otherwise record `now`.  The recorded value is the moment the call is
granted (idealized exact `sleep`), so the serialized history of a
shared instance is a fold of this step over the acquisition times. -/

/-- The new `last_request_time` recorded by one `wait_if_needed` call
that holds the lock at clock reading `now`. -/
def wait_if_needed_record (min_interval last now : ℚ) : ℚ :=
  if last + min_interval > now then last + min_interval else now

/-- Recorded grant times of a serialized sequence of `wait_if_needed`
calls with lock-acquisition clock readings `nows`, starting from the
stored `last_request_time = last`. -/
def recordedTimes (min_interval : ℚ) : ℚ → List ℚ → List ℚ
  | _, [] => []
  | last, now :: rest =>
      let t := wait_if_needed_record min_interval last now
      t :: recordedTimes min_interval t rest

/-! ## SynthesisMerger
(src/domains/services/synthesis_service.py)

The LLM chat-completion call of `merge_two_contents` is abstracted as
`llm content1 content2 max_tokens`, returning the response text or
raising; the prompts it is built from are functions of exactly those
arguments plus the fixed `user_query`. -/

/-- `merge_two_contents` (synthesis_service.py lines 21-90).  In the
success path the response is stripped and content-filtered, falling
back to `content1 or content2` if the filter empties it; in the
exception path the two inputs are concatenated, filtered, with the
same final fallback. -/
def merge_two_contents (llm : String → String → ℕ → Except Unit String)
    (content1 content2 : String) (max_tokens : ℕ) : String :=
  if content1 = "" ∧ content2 = "" then ""
  else if content1 = "" then content2
  else if content2 = "" then content1
  else
    match llm content1 content2 max_tokens with
    | Except.ok response =>
        let merged_content := pyStripStr response
        let final_content := filter_invalid_content merged_content
        if final_content ≠ "" then final_content
        else if content1 ≠ "" then content1 else content2
    | Except.error _ =>
        let fallback := content1 ++ "\n\n" ++ content2
        let filtered := filter_invalid_content fallback
        if filtered ≠ "" then filtered
        else if content1 ≠ "" then content1 else content2

/-- Per-level token budget: `min(base_tokens + level * 500, 4000)` with
`base_tokens = 1000` (synthesis_service.py lines 124-125); the loop
increments `level` before computing it, so the first merge level runs
with `levelTokens 1`. -/
def levelTokens (level : ℕ) : ℕ := min (1000 + level * 500) 4000

/-- The pairing step (lines 132-138): adjacent items left to right; an
odd final item is paired with the empty string. -/
def makePairs : List String → List (String × String)
  | [] => []
  | [x] => [(x, "")]
  | x :: y :: rest => (x, y) :: makePairs rest

/-- One merge level (the `ThreadPoolExecutor` block, lines 140-174):
the function the loop submits for every pair is `merge_two_contents`;
results are collected indexed by pair position (so original order is
preserved regardless of completion order), and only non-blank outputs
survive into the next level.  `merge_two_contents` is total, so the
executor's own `except`-fallback (lines 164-169) is unreachable. -/
def nextLevelOf (llm : String → String → ℕ → Except Unit String)
    (max_tokens : ℕ) (items : List String) : List String :=
  ((makePairs items).map
      (fun p => merge_two_contents llm p.1 p.2 max_tokens)).filter
    (fun r => r ≠ "" ∧ pyStripStr r ≠ "")

/-- The `while len(current_level) > 1` loop (lines 121-181) plus the
final extraction (line 183).  `valid_results` is the filtered input
list the total-failure fallback (lines 176-178) reads; theorem
`synth_total_failure_unreachable` below proves that branch dead code,
since `merge_two_contents` never returns a blank string when its first
input is non-blank.  The loop is fuelled by the current level's length:
every iteration strictly shrinks the level (a level of `n ≥ 2` items
has `⌈n/2⌉ < n` pairs), so with initial fuel `length` the fuel can
never be exhausted and the `0` equation is unreachable. -/
def mergeLoop (llm : String → String → ℕ → Except Unit String)
    (valid_results : List String) : ℕ → ℕ → List String → String
  | 0, _, _ => ""
  | n + 1, level, current_level =>
      if current_level.length ≤ 1 then
        match current_level with
        | [] => ""
        | x :: _ => x
      else
        let max_tokens := levelTokens (level + 1)
        let next_level := nextLevelOf llm max_tokens current_level
        if next_level.isEmpty then
          match valid_results with
          | [] => ""
          | x :: _ => x
        else mergeLoop llm valid_results n (level + 1) next_level

/-- The filter pass of `intelligent_synthesis_merge` (lines 102-107):
content-filter every raw result and keep the non-empty survivors. -/
def synthSurvivors (results : List String) : List String :=
  (results.map filter_invalid_content).filter (fun r => r ≠ "")

/-- `intelligent_synthesis_merge` (synthesis_service.py lines 94-186),
parametrized only by the LLM collaborator that `merge_two_contents`
consults. -/
def intelligent_synthesis_merge (llm : String → String → ℕ → Except Unit String)
    (results : List String) : String :=
  if results.isEmpty then ""
  else
    let valid_results := synthSurvivors results
    if valid_results.isEmpty then ""
    else if valid_results.length = 1 then
      match valid_results with
      | [] => ""
      | x :: _ => x
    else mergeLoop llm valid_results valid_results.length 0 valid_results

/-! ## Spec-side reading of the content-filter rule

The spec describes the emptiness test as a fraction of *sentences* that
match a pattern; the source counts matching *patterns* against the
sentence count.  The next two definitions formalize the spec's reading
so the two can be compared. -/

/-- The parts `re.split(r"[。！？.!?\n]", content)` yields. -/
def splitSentences : List Char → List (List Char)
  | [] => [[]]
  | c :: rest =>
      if c ∈ sentenceDelims then [] :: splitSentences rest
      else
        match splitSentences rest with
        | [] => [[c]]
        | p :: ps => (c :: p) :: ps

/-- Spec-side count: how many sentences contain a match of some
invalid pattern (the claim reads the threshold test as a fraction of
these, not of matching patterns). -/
def claimMatchingSentences (s : List Char) : ℕ :=
  ((splitSentences s).filter
    (fun p => invalidPatterns.any (fun re => reSearch re p))).length

/-! ## Concrete instances used by the claim theorems -/

/-- Context right after a first search attempt found one paper and
before any processing: reached through
INITIALIZING → ANALYZING_QUERY → PLANNING_SEARCH → EXECUTING_SEARCH
(which set `total_papers_found := 1` and `search_attempts := 1`). -/
def ctxAfterFirstSearch : ExecutionContext :=
  { current_state := AgentState.PROCESSING_RESULTS
    search_attempts := 1
    total_papers_found := 1
    processed_papers := 0
    successful_analyses := 0
    failed_analyses := 0
    current_keywords := "transformer efficiency"
    user_query := "transformer efficiency" }

/-- Context at the start of a second PROCESSING_RESULTS pass: the first
attempt processed one paper successfully, the strategy was refined, and
the second search found one paper again (counters carry over, while
`total_papers_found` and `search_attempts` were overwritten /
incremented by EXECUTING_SEARCH). -/
def ctxSecondAttempt : ExecutionContext :=
  { current_state := AgentState.PROCESSING_RESULTS
    search_attempts := 2
    total_papers_found := 1
    processed_papers := 1
    successful_analyses := 1
    failed_analyses := 0
    current_keywords := "transformer efficiency"
    user_query := "transformer efficiency" }

/-- Context in EVALUATING_RESULTS after a first attempt found nothing:
`needs_refinement` is then true by decision rule 1. -/
def ctxNoPapers : ExecutionContext :=
  { current_state := AgentState.EVALUATING_RESULTS
    search_attempts := 1
    total_papers_found := 0
    processed_papers := 0
    successful_analyses := 0
    failed_analyses := 0
    current_keywords := "transformer efficiency"
    user_query := "transformer efficiency" }

/-- A relevance scorer whose LLM call raises (as the truncated
`evaluate_abstract_relevance` would): every paper is then fail-open
included. -/
def scorerRaises : PaperMeta → Except Unit ℚ := fun _ => Except.error ()

/-- A relevance scorer that returns 0.0 for every abstract. -/
def scorerZero : PaperMeta → Except Unit ℚ := fun _ => Except.ok 0

/-- A paper whose abstract scores 0.0 against the query. -/
def paperOffTopic : PaperMeta :=
  { id := "2501.00001"
    summary := "A study of unrelated soil chemistry measurements." }

/-- 55 identical letters: passes the content filter unchanged (no
pattern matches, one sentence part, nothing stripped, length ≥ 50). -/
def strA : String := "aaaaaaaaaaaaaaaaaaaaaaaaaaaaaaaaaaaaaaaaaaaaaaaaaaaaaaa"

def strB : String := "bbbbbbbbbbbbbbbbbbbbbbbbbbbbbbbbbbbbbbbbbbbbbbbbbbbbbbb"

def strC : String := "ccccccccccccccccccccccccccccccccccccccccccccccccccccccc"

def strD : String := "ddddddddddddddddddddddddddddddddddddddddddddddddddddddd"

def strR1 : String := "eeeeeeeeeeeeeeeeeeeeeeeeeeeeeeeeeeeeeeeeeeeeeeeeeeeeeee"

def strR2 : String := "fffffffffffffffffffffffffffffffffffffffffffffffffffffff"

/-- An LLM collaborator whose merge response reveals the token budget
it was called with: `strR1` under a 1500-token budget, `strR2`
otherwise. -/
def llmBudgetProbe : String → String → ℕ → Except Unit String :=
  fun _ _ max_tokens =>
    if max_tokens = 1500 then Except.ok strR1 else Except.ok strR2

/-- Content whose single boilerplate sentence matches three invalid
patterns while its three substantive sentences match none: the source
then counts 3 matching patterns against 5 sentence parts (3 > 2.5 →
discard), although only 1 of the 5 sentence parts matches. -/
def cexFilterStr : String :=
  "there is no data nothing found no results found. Gradient descent converges fast. Results scale well. Models are compact."

/-- Substantive content with one embedded boilerplate line. -/
def embeddedPhraseStr : String :=
  "Transformer scaling improves translation quality markedly.\nno relevant information\nAttention layers drive most gains."

/-- `embeddedPhraseStr` after the filter strips the boilerplate line. -/
def embeddedPhraseExpected : String :=
  "Transformer scaling improves translation quality markedly.\n\nAttention layers drive most gains."

end LibraryIndex




namespace LibraryIndex

/-! # Theorems

Helper lemmas first, then one theorem (plus witness or counterexample)
per claim. -/

/-- Fidelity of the integer threshold test: it is exactly the source's
rational comparison `invalid_count > total_sentences * FILTER_CONDITIONS`. -/
theorem filterThresholdExceeded_iff_rat (ic ts : ℕ) :
    filterThresholdExceeded ic ts = true ↔ (ic : ℚ) > (ts : ℚ) * FILTER_CONDITIONS := by
  unfold filterThresholdExceeded FILTER_CONDITIONS
  rw [gt_iff_lt, mul_one_div, div_lt_iff₀ (by norm_num : (0 : ℚ) < 2)]
  simp only [decide_eq_true_eq]
  constructor
  · intro h
    exact_mod_cast (by omega : ts < ic * 2)
  · intro h
    have hn : ts < ic * 2 := by exact_mod_cast h
    omega

/-- `wait_if_needed` never records a time earlier than
`last_request_time + min_interval`: the call is granted (and its grant
time recorded) only once the minimum interval has elapsed. -/
theorem wait_record_ge (min_interval last now : ℚ) :
    last + min_interval ≤ wait_if_needed_record min_interval last now := by
  unfold wait_if_needed_record
  split_ifs with h
  · exact le_refl _
  · exact not_lt.mp h

/-- One analysed paper adds exactly one to the success/failure counter
total and leaves `processed_papers` alone. -/
theorem applyPaperOutcome_counters (ctx : ExecutionContext) (b : Bool) :
    (applyPaperOutcome ctx b).successful_analyses + (applyPaperOutcome ctx b).failed_analyses
        = ctx.successful_analyses + ctx.failed_analyses + 1 ∧
      (applyPaperOutcome ctx b).processed_papers = ctx.processed_papers := by
  unfold applyPaperOutcome
  split_ifs <;> simp <;> omega

/-- Folding the per-paper counter update over a list adds the list
length to the success/failure total. -/
theorem foldl_applyPaperOutcome (outcome : PaperMeta → Bool) :
    ∀ (l : List PaperMeta) (ctx : ExecutionContext),
      ((l.foldl (fun c m => applyPaperOutcome c (outcome m)) ctx).successful_analyses
          + (l.foldl (fun c m => applyPaperOutcome c (outcome m)) ctx).failed_analyses
          = ctx.successful_analyses + ctx.failed_analyses + l.length)
        ∧ (l.foldl (fun c m => applyPaperOutcome c (outcome m)) ctx).processed_papers
          = ctx.processed_papers
  | [], ctx => by simp
  | m :: rest, ctx => by
      have ih := foldl_applyPaperOutcome outcome rest (applyPaperOutcome ctx (outcome m))
      have hm := applyPaperOutcome_counters ctx (outcome m)
      simp only [List.foldl_cons, List.length_cons]
      exact ⟨by omega, by omega⟩

/-- **C4** (confirmed).  `evaluate_search_quality` returns
`papers_found = total_papers_found`,
`success_rate = successful_analyses / max(1, processed_papers)`,
`search_efficiency = total_papers_found / max(1, search_attempts)`, and
picks `(needs_refinement, suggested_action)` by first matching rule:
no papers → `expand_keywords`; success rate below the configured
minimum (0.3) → `refine_keywords`; papers below the configured minimum
result count (3) while `search_attempts < max_retries` →
`broaden_search`; otherwise `(false, "continue")`.  It is pure: the
output depends only on the four counter fields, so two calls on an
unmodified context agree. -/
theorem C4_evaluate_policy_pure :
    ∀ ctx : ExecutionContext,
      (evaluate_search_quality ctx).papers_found = ctx.total_papers_found ∧
      (evaluate_search_quality ctx).success_rate
          = (ctx.successful_analyses : ℚ) / ((max 1 ctx.processed_papers : ℕ) : ℚ) ∧
      (evaluate_search_quality ctx).search_efficiency
          = (ctx.total_papers_found : ℚ) / ((max 1 ctx.search_attempts : ℕ) : ℚ) ∧
      ((evaluate_search_quality ctx).needs_refinement,
          (evaluate_search_quality ctx).suggested_action)
          = (if ctx.total_papers_found = 0 then (true, "expand_keywords")
             else if (ctx.successful_analyses : ℚ) / ((max 1 ctx.processed_papers : ℕ) : ℚ)
                 < MIN_PAPER_ANALYSIS_SUCCESS_RATE then (true, "refine_keywords")
             else if ctx.total_papers_found < MIN_SEARCH_RESULTS
                 ∧ ctx.search_attempts < MAXIMUM_NUM_OF_RETRIES then (true, "broaden_search")
             else (false, "continue")) ∧
      (∀ ctx2 : ExecutionContext,
        ctx2.total_papers_found = ctx.total_papers_found →
        ctx2.processed_papers = ctx.processed_papers →
        ctx2.successful_analyses = ctx.successful_analyses →
        ctx2.search_attempts = ctx.search_attempts →
        evaluate_search_quality ctx2 = evaluate_search_quality ctx) := by
  intro ctx
  refine ⟨?_, ?_, ?_, ?_, ?_⟩
  · unfold evaluate_search_quality; dsimp only; split_ifs <;> rfl
  · unfold evaluate_search_quality; dsimp only; split_ifs <;> rfl
  · unfold evaluate_search_quality; dsimp only; split_ifs <;> rfl
  · unfold evaluate_search_quality; dsimp only; split_ifs <;> rfl
  · intro ctx2 h1 h2 h3 h4
    unfold evaluate_search_quality
    rw [h1, h2, h3, h4]

/-- Witness for C4: the purity clause at a concrete pair of contexts
that differ only in a field the evaluation does not read. -/
theorem C4_witness :
    evaluate_search_quality { ctxNoPapers with current_keywords := "other keywords" }
      = evaluate_search_quality ctxNoPapers :=
  (C4_evaluate_policy_pure ctxNoPapers).2.2.2.2
    { ctxNoPapers with current_keywords := "other keywords" } rfl rfl rfl rfl

/-- **C1** (code bug).  In the `EVALUATING_RESULTS` handler of
src/domains/agents/agent.py the retry bound is read as `CONFIG[""]`
(line 469): the empty string is not a configuration key, so on any
context that needs refinement — here the reachable context after a
first search that found nothing — the handler raises `KeyError`
instead of returning `REFINING_STRATEGY`.  The duplicate revision in
src/domains/orchestrator.py (lines 838-867), which compares against
`self.max_search_retries`, behaves exactly as the claim states on the
same input. -/
theorem C1_agent_eval_handler_raises :
    handle_result_evaluation_agent ctxNoPapers = Except.error "KeyError" ∧
    (evaluate_search_quality ctxNoPapers).needs_refinement = true ∧
    ctxNoPapers.search_attempts < MAXIMUM_NUM_OF_RETRIES ∧
    CONSTANT_CONFIG_num "" = none ∧
    handle_result_evaluation_orch MAXIMUM_NUM_OF_RETRIES ctxNoPapers
      = AgentState.REFINING_STRATEGY := by
  refine ⟨rfl, rfl, by decide, rfl, rfl⟩

/-- **C8** (confirmed).  For the serialized (mutex-guarded) call
history of one shared `RateLimiter`: every call records a grant time at
least `min_interval` after the previously recorded one — each call
blocks until the interval has elapsed and then records its grant time —
so consecutive recorded grant times are always ≥ `min_interval`
apart, whatever the lock-acquisition times were. -/
theorem C8_rate_limiter_min_gap :
    (∀ min_interval last now : ℚ,
       last + min_interval ≤ wait_if_needed_record min_interval last now) ∧
    (∀ (min_interval last : ℚ) (nows : List ℚ),
       List.Chain' (fun t1 t2 => min_interval ≤ t2 - t1)
         (recordedTimes min_interval last nows)) := by
  constructor
  · exact wait_record_ge
  · intro min_interval last nows
    induction nows generalizing last with
    | nil => simp [recordedTimes]
    | cons now rest ih =>
        rcases rest with _ | ⟨now2, rest2⟩
        · simp [recordedTimes]
        · simp only [recordedTimes]
          rw [List.chain'_cons]
          constructor
          · have h := wait_record_ge min_interval
              (wait_if_needed_record min_interval last now) now2
            linarith
          · have h := ih (wait_if_needed_record min_interval last now)
            simpa [recordedTimes] using h

/-- **C2 counterexample**.  The spec's counter invariant
`successful_analyses + failed_analyses ≤ processed_papers` fails at
reachable points of a run: (i) inside the first `PROCESSING_RESULTS`
pass, right after the first paper's success increment and before
`processed_papers` is assigned (agent.py line 423), the counters read
1 + 0 ≤ 0; (ii) at the very end of a second pass (one success on each
attempt), they read 2 + 0 ≤ 1, because `processed_papers` was
overwritten with the second attempt's count while the success counter
kept accumulating.  Both starting contexts satisfy the invariant. -/
theorem C2_counterexample_invariant_fails :
    (applyPaperOutcome ctxAfterFirstSearch true)
        ∈ processingTrace ctxAfterFirstSearch [true] ∧
    ¬ countersInvariant (applyPaperOutcome ctxAfterFirstSearch true) ∧
    ¬ countersInvariant
        (handle_result_processing scorerRaises (fun _ => true) (fun m => m.id)
          ctxSecondAttempt [paperOffTopic]).1 ∧
    countersInvariant ctxAfterFirstSearch ∧
    countersInvariant ctxSecondAttempt := by
  refine ⟨by decide, by decide, by decide, by decide, by decide⟩

/-- **C2 amended**.  What the code actually guarantees: the counters
are naturals (hence non-negative); one `PROCESSING_RESULTS` pass whose
relevance gate admits at least one paper adds exactly the number of
admitted papers to `successful_analyses + failed_analyses` and then
sets `processed_papers` to that same number; consequently
`successful_analyses + failed_analyses ≤ processed_papers` does hold at
the end of the pass when both analysis counters started at zero (first
attempt), though not mid-pass nor across later attempts. -/
theorem C2_amended_counter_deltas :
    ∀ (scorer : PaperMeta → Except Unit ℚ) (outcome : PaperMeta → Bool)
      (queued : PaperMeta → String) (ctx : ExecutionContext)
      (all_metadata : List PaperMeta),
      all_metadata.filter (passes_relevance_filter scorer) ≠ [] →
      ((handle_result_processing scorer outcome queued ctx all_metadata).1.successful_analyses
          + (handle_result_processing scorer outcome queued ctx all_metadata).1.failed_analyses
          = ctx.successful_analyses + ctx.failed_analyses
            + (all_metadata.filter (passes_relevance_filter scorer)).length) ∧
      (handle_result_processing scorer outcome queued ctx all_metadata).1.processed_papers
          = (all_metadata.filter (passes_relevance_filter scorer)).length ∧
      (ctx.successful_analyses = 0 ∧ ctx.failed_analyses = 0 →
        countersInvariant (handle_result_processing scorer outcome queued ctx all_metadata).1) := by
  intro scorer outcome queued ctx all_metadata hfilter
  have hne : all_metadata ≠ [] := by
    intro h
    rw [h] at hfilter
    simp at hfilter
  have hδ := foldl_applyPaperOutcome outcome
    (all_metadata.filter (passes_relevance_filter scorer)) ctx
  unfold handle_result_processing
  rw [if_neg (by simpa [List.isEmpty_iff] using hne),
    if_neg (by simpa [List.isEmpty_iff] using hfilter)]
  refine ⟨by simpa using hδ.1, rfl, ?_⟩
  rintro ⟨h1, h2⟩
  unfold countersInvariant
  simp only
  omega

/-- Witness for C2's amended theorem at a concrete input: one found
paper whose relevance scoring raises (fail-open include), one
successful analysis, starting from the first-attempt context. -/
theorem C2_amended_witness :
    (handle_result_processing scorerRaises (fun _ => true) (fun m => m.id)
        ctxAfterFirstSearch [paperOffTopic]).1.processed_papers
      = ([paperOffTopic].filter (passes_relevance_filter scorerRaises)).length ∧
    countersInvariant
      (handle_result_processing scorerRaises (fun _ => true) (fun m => m.id)
        ctxAfterFirstSearch [paperOffTopic]).1 := by
  have h := C2_amended_counter_deltas scorerRaises (fun _ => true) (fun m => m.id)
    ctxAfterFirstSearch [paperOffTopic] (by decide)
  exact ⟨h.2.1, h.2.2 ⟨rfl, rfl⟩⟩

/-- **C10** (code bug).  The relevance gate of `PROCESSING_RESULTS`
never excludes anything: `MINIMUM_RELEVANCE_THRESHOLD` is defined
nowhere (and `evaluate_abstract_relevance` is syntactically truncated
in find_connect_service.py), so the threshold comparison inside the
fail-open `try` raises and every paper is included.  Concretely, a
paper whose abstract scores 0.0 still passes the gate, is dispatched
(one result-queue entry), and is counted: `processed_papers` ends up
equal to the number of papers *found*, not the number that passed any
relevance test.  The handler then does not even return: the closing
`add_execution_record` call reads the same missing key outside any
`try` (line 434), so after the mutations it raises `KeyError` instead
of returning `EVALUATING_RESULTS`. -/
theorem C10_relevance_gate_inoperative :
    CONSTANT_CONFIG_num "MINIMUM_RELEVANCE_THRESHOLD" = none ∧
    passes_relevance_filter scorerZero paperOffTopic = true ∧
    (handle_result_processing scorerZero (fun _ => true) (fun m => m.id)
        ctxAfterFirstSearch [paperOffTopic]).1.processed_papers = 1 ∧
    (handle_result_processing scorerZero (fun _ => true) (fun m => m.id)
        ctxAfterFirstSearch [paperOffTopic]).2.1 = ["2501.00001"] ∧
    (handle_result_processing scorerZero (fun _ => true) (fun m => m.id)
        ctxAfterFirstSearch [paperOffTopic]).2.2 = Except.error "KeyError" := by
  refine ⟨rfl, by decide, by decide, by decide, rfl⟩

/-- **C9** (confirmed).  If the content-filter pass leaves zero
survivors the merger returns `""`; if it leaves exactly one survivor
the merger returns it unchanged, and the result does not depend on the
LLM collaborator at all (no merge call is consulted); in particular
`merge([x]) = filter(x)` for every string `x`. -/
theorem C9_merge_zero_or_one_survivor :
    (∀ (llm : String → String → ℕ → Except Unit String) (x : String),
       intelligent_synthesis_merge llm [x] = filter_invalid_content x) ∧
    (∀ (llm : String → String → ℕ → Except Unit String) (results : List String),
       synthSurvivors results = [] → intelligent_synthesis_merge llm results = "") ∧
    (∀ (llm : String → String → ℕ → Except Unit String) (results : List String)
       (s : String), synthSurvivors results = [s] →
       intelligent_synthesis_merge llm results = s) ∧
    (∀ (llm llm2 : String → String → ℕ → Except Unit String) (results : List String),
       (synthSurvivors results).length ≤ 1 →
       intelligent_synthesis_merge llm results = intelligent_synthesis_merge llm2 results) := by
  have hzero : ∀ (llm : String → String → ℕ → Except Unit String) (results : List String),
      synthSurvivors results = [] → intelligent_synthesis_merge llm results = "" := by
    intro llm results h
    rcases results with _ | ⟨r, rs⟩
    · rfl
    · simp [intelligent_synthesis_merge, h]
  have hone : ∀ (llm : String → String → ℕ → Except Unit String) (results : List String)
      (s : String), synthSurvivors results = [s] →
      intelligent_synthesis_merge llm results = s := by
    intro llm results s h
    rcases results with _ | ⟨r, rs⟩
    · simp [synthSurvivors] at h
    · simp [intelligent_synthesis_merge, h]
  have hsingle : ∀ (llm : String → String → ℕ → Except Unit String) (x : String),
      intelligent_synthesis_merge llm [x] = filter_invalid_content x := by
    intro llm x
    by_cases h : filter_invalid_content x = ""
    · rw [hzero llm [x] (by simp [synthSurvivors, List.filter, h])]
      exact h.symm
    · exact hone llm [x] (filter_invalid_content x)
        (by simp [synthSurvivors, List.filter, h])
  refine ⟨hsingle, hzero, hone, ?_⟩
  intro llm llm2 results hlen
  rcases hs : synthSurvivors results with _ | ⟨s, _ | ⟨s2, rest2⟩⟩
  · rw [hzero llm results hs, hzero llm2 results hs]
  · rw [hone llm results s hs, hone llm2 results s hs]
  · rw [hs] at hlen
    simp at hlen

/-- Witness for C9 at concrete inputs: a too-short string filters to
nothing and merges to `""`; paired with a substantive string, the
single survivor comes back unchanged under an LLM that always raises. -/
theorem C9_witness :
    intelligent_synthesis_merge (fun _ _ _ => Except.error ()) ["short"] = "" ∧
    intelligent_synthesis_merge (fun _ _ _ => Except.error ()) [strA, "short"] = strA := by
  constructor
  · exact C9_merge_zero_or_one_survivor.2.1 (fun _ _ _ => Except.error ())
      ["short"] (by decide)
  · exact C9_merge_zero_or_one_survivor.2.2.1 (fun _ _ _ => Except.error ())
      [strA, "short"] strA (by decide)

/-- **C6 counterexample**.  The merge loop increments `level` before
computing the budget, so the first merge level already runs with
`min(1000 + 1*500, 4000) = 1500` tokens, not the base 1000 the claim
asserts: with an LLM that answers `strR1` exactly under a 1500-token
budget, a two-item merge returns `strR1`, while a 1000-token call
would have produced `strR2`. -/
theorem C6_counterexample_first_level_budget :
    intelligent_synthesis_merge llmBudgetProbe [strA, strB] = strR1 ∧
    levelTokens 1 = 1500 ∧
    merge_two_contents llmBudgetProbe strA strB 1000 = strR2 ∧
    strR1 ≠ strR2 ∧
    (1500 : ℕ) ≠ 1000 := by
  refine ⟨by decide, by decide, by decide, by decide, by decide⟩

/-- **C6 amended**.  With merge levels numbered from 1 as the loop
does, the per-merge budget at level `L` is `min(1000 + L*500, 4000)`:
monotonically non-decreasing in the level and capped at 4000, with the
first merge level's budget equal to 1500 (not the base value 1000),
as the concrete two-item merge observes. -/
theorem C6_amended_level_budget :
    (∀ level, levelTokens level = min (1000 + level * 500) 4000) ∧
    (∀ level, levelTokens level ≤ levelTokens (level + 1)) ∧
    (∀ level, levelTokens level ≤ 4000) ∧
    levelTokens 1 = 1500 ∧
    intelligent_synthesis_merge llmBudgetProbe [strC, strD] = strR1 := by
  refine ⟨fun _ => rfl, ?_, ?_, by decide, by decide⟩
  · intro level
    unfold levelTokens
    omega
  · intro level
    unfold levelTokens
    omega

/-! ## The total-failure fallback of the merge loop is dead code

The spec's last-resort-fallback sentence (synthesis_service.py lines
176-178) talks about a level whose pairwise merge outputs are all
blank.  The lemmas below show that the guard of that branch can never
fire in the source, under every LLM collaborator behaviour:
`merge_two_contents` never returns a blank string when its first input
is non-blank, every content-filter survivor is non-blank, and the
level filter only lets non-blank items through — so every level the
loop visits consists of non-blank items and produces a non-empty next
level. -/

/-- The head of `dropWhile p l` does not satisfy `p`. -/
theorem dropWhile_head_not {p : Char → Bool} :
    ∀ {l : List Char} {x : Char} {xs : List Char},
      List.dropWhile p l = x :: xs → p x = false := by
  intro l
  induction l with
  | nil => intro x xs h; simp [List.dropWhile] at h
  | cons c t ih =>
      intro x xs h
      rw [List.dropWhile_cons] at h
      by_cases hc : p c = true
      · rw [if_pos hc] at h
        exact ih h
      · rw [if_neg hc] at h
        injection h with h1 h2
        subst h1
        exact Bool.eq_false_iff.mpr hc

/-- A non-empty stripped string contains a non-whitespace character. -/
theorem pyStrip_exists_nonspace {l : List Char} (h : pyStrip l ≠ []) :
    ∃ c ∈ pyStrip l, pyIsSpace c = false := by
  unfold pyStrip at h ⊢
  rcases hd : List.dropWhile pyIsSpace ((l.dropWhile pyIsSpace).reverse)
    with _ | ⟨x, xs⟩
  · rw [hd] at h
    simp at h
  · refine ⟨x, ?_, dropWhile_head_not hd⟩
    simp

/-- Stripping is idempotent on non-emptiness: the strip of a non-empty
stripped string is still non-empty. -/
theorem pyStrip_pyStrip_ne_nil {l : List Char} (h : pyStrip l ≠ []) :
    pyStrip (pyStrip l) ≠ [] := by
  intro hcon
  obtain ⟨c, hc, hcf⟩ := pyStrip_exists_nonspace h
  have hdrop : ∀ x ∈ List.dropWhile pyIsSpace (pyStrip l), pyIsSpace x = true := by
    have h1 : List.dropWhile pyIsSpace (((pyStrip l).dropWhile pyIsSpace).reverse)
        = [] := by
      have h0 := hcon
      unfold pyStrip at h0
      rwa [List.reverse_eq_nil_iff] at h0
    have h2 := List.dropWhile_eq_nil_iff.mp h1
    intro x hx
    exact h2 x (by simpa using hx)
  have hall : ∀ x ∈ pyStrip l, pyIsSpace x = true := by
    intro x hx
    have hsplit : x ∈ List.takeWhile pyIsSpace (pyStrip l)
        ++ List.dropWhile pyIsSpace (pyStrip l) := by
      rw [List.takeWhile_append_dropWhile]
      exact hx
    rcases List.mem_append.mp hsplit with hx2 | hx2
    · exact List.mem_takeWhile_imp hx2
    · exact hdrop x hx2
  have := hall c hc
  rw [this] at hcf
  cases hcf

/-- A non-empty output of the content filter is non-blank. -/
theorem filter_invalid_content_nonblank (s : String)
    (h : filter_invalid_content s ≠ "") :
    pyStrip (filter_invalid_content s).data ≠ [] := by
  unfold filter_invalid_content at h ⊢
  dsimp only at h ⊢
  split_ifs at h ⊢ with h1 h2 h3
  · exact absurd rfl h
  · exact absurd rfl h
  · exact absurd rfl h
  · apply pyStrip_pyStrip_ne_nil
    intro hnil
    rw [hnil] at h3
    exact h3 (by simp [FILTER_MIN_NUMBER])

/-- A non-blank string passes the next-level survival test. -/
theorem nonblank_survival_test {m : String} (hm : pyStrip m.data ≠ []) :
    m ≠ "" ∧ pyStripStr m ≠ "" := by
  constructor
  · intro he
    rw [he] at hm
    exact hm rfl
  · intro he
    have hdata := congrArg String.data he
    simp [pyStripStr] at hdata
    exact hm hdata

/-- `merge_two_contents` never returns a blank string when its first
input is non-blank: its success path falls back to `content1 or
content2` when the filter empties the response, and its exception path
does the same. -/
theorem merge_two_contents_nonblank (llm : String → String → ℕ → Except Unit String)
    (c1 c2 : String) (max_tokens : ℕ) (h1 : pyStrip c1.data ≠ []) :
    pyStrip (merge_two_contents llm c1 c2 max_tokens).data ≠ [] := by
  have hc1 : c1 ≠ "" := (nonblank_survival_test h1).1
  unfold merge_two_contents
  rw [if_neg (fun hand => hc1 hand.1), if_neg hc1]
  split_ifs with h2
  · exact h1
  · cases hllm : llm c1 c2 max_tokens with
    | ok response =>
        dsimp only
        split_ifs with hf
        · exact filter_invalid_content_nonblank _ hf
        · exact h1
    | error e =>
        dsimp only
        split_ifs with hf
        · exact filter_invalid_content_nonblank _ hf
        · exact h1

/-- Dead code: whatever the LLM does, (i) a non-empty level of
non-blank items always produces a non-empty next level, so the
`if not next_level` guard of the total-failure fallback
(synthesis_service.py line 176) can never fire; (ii) the initial level
(the content-filter survivors) consists of non-blank items; and (iii)
every next-level item is again non-blank, so the property is invariant
across all levels the loop visits. -/
theorem synth_total_failure_unreachable :
    (∀ (llm : String → String → ℕ → Except Unit String) (max_tokens : ℕ)
       (items : List String), items ≠ [] →
       (∀ r ∈ items, pyStrip r.data ≠ []) →
       nextLevelOf llm max_tokens items ≠ []) ∧
    (∀ (results : List String) (r : String),
       r ∈ synthSurvivors results → pyStrip r.data ≠ []) ∧
    (∀ (llm : String → String → ℕ → Except Unit String) (max_tokens : ℕ)
       (items : List String) (r : String),
       r ∈ nextLevelOf llm max_tokens items → pyStrip r.data ≠ []) := by
  refine ⟨?_, ?_, ?_⟩
  · intro llm max_tokens items hne hnb
    rcases items with _ | ⟨x, _ | ⟨y, rest⟩⟩
    · exact absurd rfl hne
    · have hm := merge_two_contents_nonblank llm x "" max_tokens (hnb x (by simp))
      unfold nextLevelOf makePairs
      simp only [List.map_cons, List.map_nil]
      rw [List.filter_cons_of_pos (by simpa using nonblank_survival_test hm)]
      simp
    · have hm := merge_two_contents_nonblank llm x y max_tokens (hnb x (by simp))
      unfold nextLevelOf makePairs
      simp only [List.map_cons]
      rw [List.filter_cons_of_pos (by simpa using nonblank_survival_test hm)]
      simp
  · intro results r hr
    unfold synthSurvivors at hr
    obtain ⟨hr1, hr2⟩ := List.mem_filter.mp hr
    obtain ⟨x, -, rfl⟩ := List.mem_map.mp hr1
    exact filter_invalid_content_nonblank x (by simpa using hr2)
  · intro llm max_tokens items r hr
    unfold nextLevelOf at hr
    obtain ⟨-, hr2⟩ := List.mem_filter.mp hr
    have := (of_decide_eq_true hr2).2
    intro hnil
    apply this
    unfold pyStripStr
    rw [hnil]

/-- Terminal driver states are fixed points of the step function. -/
theorem driverStep_terminal (maxr : ℕ) (c : StepChoice) (s : DriverState)
    (h : IsTerminal s) : driverStep maxr c s = s := by
  obtain ⟨st, a⟩ := s
  rcases h with h | h <;> simp only at h <;> subst h <;> rfl

/-- Every non-terminal driver step strictly decreases the termination
measure, whatever the collaborators do. -/
theorem driverStep_rank_lt (maxr : ℕ) (c : StepChoice) (s : DriverState)
    (h : ¬ IsTerminal s) :
    driverRank maxr (driverStep maxr c s) < driverRank maxr s := by
  obtain ⟨st, a⟩ := s
  cases st with
  | COMPLETED => exact absurd (Or.inl rfl) h
  | ERROR => exact absurd (Or.inr rfl) h
  | INITIALIZING =>
      simp only [driverStep]; split_ifs <;> simp only [driverRank] <;> omega
  | ANALYZING_QUERY =>
      simp only [driverStep]; split_ifs <;> simp only [driverRank] <;> omega
  | PLANNING_SEARCH =>
      simp only [driverStep]; split_ifs <;> simp only [driverRank] <;> omega
  | EXECUTING_SEARCH =>
      simp only [driverStep]; split_ifs <;> simp only [driverRank] <;> omega
  | PROCESSING_RESULTS =>
      simp only [driverStep]; split_ifs <;> simp only [driverRank] <;> omega
  | EVALUATING_RESULTS =>
      simp only [driverStep]
      split_ifs with h1 h2
      · simp only [driverRank]; omega
      · obtain ⟨-, hlt⟩ := h2
        simp only [driverRank]
        omega
      · simp only [driverRank]; omega
  | REFINING_STRATEGY =>
      simp only [driverStep]; split_ifs <;> simp only [driverRank] <;> omega
  | SYNTHESIZING =>
      simp only [driverStep]; split_ifs <;> simp only [driverRank] <;> omega

/-- A state of measure zero is terminal. -/
theorem driverRank_zero_terminal (maxr : ℕ) (s : DriverState)
    (h : driverRank maxr s = 0) : IsTerminal s := by
  obtain ⟨st, a⟩ := s
  cases st <;>
    first
      | exact Or.inl rfl
      | exact Or.inr rfl
      | exact absurd h (by simp only [driverRank]; omega)

/-- Enough fuel (any bound on the measure) drives the loop to a
terminal state, for every oracle. -/
theorem runDriver_terminal (maxr : ℕ) :
    ∀ (n : ℕ) (oracle : ℕ → StepChoice) (s : DriverState),
      driverRank maxr s ≤ n → IsTerminal (runDriver maxr oracle n s)
  | 0, _, s, h => driverRank_zero_terminal maxr s (Nat.le_zero.mp h)
  | n + 1, oracle, s, h => by
      show IsTerminal
        (runDriver maxr (fun i => oracle (i + 1)) n (driverStep maxr (oracle 0) s))
      by_cases ht : IsTerminal s
      · have hz : driverRank maxr s = 0 := by
          obtain ⟨st, a⟩ := s
          rcases ht with h' | h' <;> simp only at h' <;> subst h' <;> rfl
        exact runDriver_terminal maxr n _ _
          (by rw [driverStep_terminal maxr (oracle 0) s ht]; omega)
      · have hlt := driverStep_rank_lt maxr (oracle 0) s ht
        exact runDriver_terminal maxr n _ _ (by omega)

/-- **C3** (confirmed).  For every `max_retries` and every collaborator
behaviour, the driver reaches `COMPLETED` or `ERROR` within
`7 + 5 * max_retries` handler executions — linear in `max_retries`;
`search_attempts` is incremented exactly once per completed pass
through `EXECUTING_SEARCH` (and only there); and once
`search_attempts ≥ max_retries` the `EVALUATING_RESULTS` handler can no
longer return `REFINING_STRATEGY`, so the plan/search/refine loop
cannot repeat unboundedly. -/
theorem C3_driver_terminates_linearly :
    (∀ (maxr : ℕ) (oracle : ℕ → StepChoice),
       IsTerminal (runDriver maxr oracle (7 + 5 * maxr)
         ⟨AgentState.INITIALIZING, 0⟩)) ∧
    (∀ (maxr : ℕ) (c : StepChoice) (s : DriverState),
       (driverStep maxr c s).attempts
         = s.attempts
           + (if s.st = AgentState.EXECUTING_SEARCH ∧ c.raises = false then 1 else 0)) ∧
    (∀ (maxr : ℕ) (c : StepChoice) (s : DriverState),
       maxr ≤ s.attempts →
       (driverStep maxr c s).st ≠ AgentState.REFINING_STRATEGY) := by
  refine ⟨?_, ?_, ?_⟩
  · intro maxr oracle
    apply runDriver_terminal
    simp only [driverRank]
    omega
  · intro maxr c s
    obtain ⟨st, a⟩ := s
    cases st <;> simp only [driverStep] <;> split_ifs <;> simp_all
  · intro maxr c s hle
    obtain ⟨st, a⟩ := s
    cases st <;> simp only [driverStep] <;> (try split_ifs) <;>
      (try simp_all) <;> omega

/-- Witness for C3 at concrete inputs: with `max_retries = 1` and
`search_attempts = 1` already, evaluation does not refine even though
the collaborator asks for refinement; and a `max_retries = 0` run is
terminal within 7 steps. -/
theorem C3_witness :
    (driverStep 1 { raises := false, papersFound := false, needsRefinement := true }
        ⟨AgentState.EVALUATING_RESULTS, 1⟩).st ≠ AgentState.REFINING_STRATEGY ∧
    IsTerminal (runDriver 0
      (fun _ => { raises := false, papersFound := false, needsRefinement := true })
      7 ⟨AgentState.INITIALIZING, 0⟩) := by
  constructor
  · exact C3_driver_terminates_linearly.2.2 1
      { raises := false, papersFound := false, needsRefinement := true }
      ⟨AgentState.EVALUATING_RESULTS, 1⟩ (by decide)
  · exact C3_driver_terminates_linearly.1 0
      (fun _ => { raises := false, papersFound := false, needsRefinement := true })

/-- **C7 counterexample**.  The source's emptiness gate counts matching
*patterns* against the sentence count, not matching *sentences*: in
`cexFilterStr` a single boilerplate sentence matches 3 of the 32
patterns while the string splits into 5 sentence parts, so the code
discards the whole string (3 > 5·0.5), although only 1 of the 5
sentence parts matches any pattern (not more than 50%) and the
stripped remainder is 74 ≥ 50 characters — under the claim's reading
the string would have been retained with the phrases stripped. -/
theorem C7_counterexample_patterns_not_sentences :
    filter_invalid_content cexFilterStr = "" ∧
    2 * claimMatchingSentences cexFilterStr.data ≤ totalSentences cexFilterStr.data ∧
    FILTER_MIN_NUMBER ≤ (pyStrip (cleanupWhitespace (stripPatterns cexFilterStr.data))).length ∧
    numMatchingPatterns cexFilterStr.data = 3 ∧
    totalSentences cexFilterStr.data = 5 ∧
    claimMatchingSentences cexFilterStr.data = 1 := by
  refine ⟨by decide, by decide, by decide, by decide, by decide, by decide⟩

/-- **C7 amended**.  The filter returns the empty string exactly when
the number of invalid *patterns* with a match exceeds half the number
of sentence parts, or when the input with matched sub-sentences
stripped (plus whitespace cleanup) is shorter than 50 characters;
otherwise it returns the stripped remainder.  The claim's two boundary
examples hold as stated: a string that is solely a
no-relevant-information phrase (either language) filters to empty, and
substantive content with one embedded phrase is retained with the
phrase stripped. -/
theorem C7_amended_filter_characterization :
    (∀ content : String, content ≠ "" →
       (filter_invalid_content content = "" ↔
         (filterThresholdExceeded (numMatchingPatterns content.data)
             (totalSentences content.data) = true ∨
          (pyStrip (cleanupWhitespace (stripPatterns content.data))).length
            < FILTER_MIN_NUMBER)) ∧
       (filter_invalid_content content ≠ "" →
         filter_invalid_content content
           = String.mk (pyStrip (cleanupWhitespace (stripPatterns content.data))))) ∧
    filter_invalid_content "no relevant information found" = "" ∧
    filter_invalid_content "没有找到相关信息" = "" ∧
    filter_invalid_content embeddedPhraseStr = embeddedPhraseExpected := by
  refine ⟨?_, by decide, by decide, by decide⟩
  intro content hne
  unfold filter_invalid_content
  rw [if_neg hne]
  dsimp only
  constructor
  · split_ifs with h1 h2
    · simp [h1]
    · simp [h1, h2]
    · constructor
      · intro habs
        have hdata : (pyStrip (cleanupWhitespace (stripPatterns content.data))) = [] := by
          have := congrArg String.data habs
          simpa using this
        exact absurd (by rw [hdata]; simp [FILTER_MIN_NUMBER]) h2
      · rintro (hor | hor)
        · exact absurd hor h1
        · exact absurd hor h2
  · split_ifs with h1 h2
    · intro hcon; exact absurd rfl hcon
    · intro hcon; exact absurd rfl hcon
    · intro _; rfl

/-- Witness for C7's amended theorem: the characterization instantiated
at a concrete short string (which the length gate empties). -/
theorem C7_amended_witness :
    filter_invalid_content "short text" = "" ↔
      (filterThresholdExceeded (numMatchingPatterns "short text".data)
          (totalSentences "short text".data) = true ∨
       (pyStrip (cleanupWhitespace (stripPatterns "short text".data))).length
         < FILTER_MIN_NUMBER) :=
  (C7_amended_filter_characterization.1 "short text" (by decide)).1

end LibraryIndex
